import Mathlib

/-!
Shallow embedding of the Jira/NestJS product-synchronization service
(`src/products/products.service.ts`, `src/jira/jira.service.ts`).

The embedding follows the source code: JavaScript values reaching the
Atlassian-Document-Format decoder are modelled by `JsVal` (null/undefined,
strings, arrays, and objects exposing the three fields the code reads:
`type`, `text`, `content`); JavaScript truthiness is modelled explicitly;
code that can throw a `TypeError` returns `Except String`.
-/

namespace JiraSync

/-- A JavaScript value as seen by `extractTextFromADF`: the code only ever
reads `.type`, `.text` and `.content` of objects, distinguishes strings and
arrays, and tests truthiness.  `undefined` stands for both `undefined` and
`null` (both falsy; both throw on property access). -/
inductive JsVal where
  | undefined : JsVal
  | str : String → JsVal
  | arr : List JsVal → JsVal
  | node : JsVal → JsVal → JsVal → JsVal   -- an object with fields type, text, content

namespace JsVal

/-- The strict-equality test `v === 'lit'` against a string literal. -/
def isStrEq (v : JsVal) (lit : String) : Bool :=
  match v with
  | .str t => t = lit
  | _ => false

/-- JavaScript truthiness for the values of our model: `undefined`/`null`
and the empty string are falsy; arrays and objects are always truthy. -/
def truthy : JsVal → Bool
  | .undefined => false
  | .str s => s ≠ ""
  | .arr _ => true
  | .node _ _ _ => true

/-- Property access `v.type`: `undefined` on non-objects. -/
def jsType : JsVal → JsVal
  | .node ty _ _ => ty
  | _ => .undefined

/-- Property access `v.text`: `undefined` on non-objects. -/
def jsText : JsVal → JsVal
  | .node _ tx _ => tx
  | _ => .undefined

/-- Property access `v.content`: `undefined` on non-objects. -/
def jsContent : JsVal → JsVal
  | .node _ _ c => c
  | _ => .undefined

end JsVal

/-- A whitespace character, as trimmed by JavaScript `String.prototype.trim`
(the characters that can occur in this service's strings). -/
def isWs (c : Char) : Bool := c = ' ' || c = '\n' || c = '\t' || c = '\r'

/-- JavaScript `s.trim()`: strip leading and trailing whitespace. -/
def jsTrim (s : String) : String :=
  ⟨((s.data.dropWhile isWs).reverse.dropWhile isWs).reverse⟩

/-- JavaScript `node.text || ''` for the values our model allows in the
`text` field: the string itself, or `''` when absent. -/
def jsTextOrEmpty : JsVal → String
  | .str s => s
  | _ => ""

mutual

/-- The inner recursive `extractText` closure of `extractTextFromADF`
(products.service.ts).  Applying it to `null`/`undefined` models the
`TypeError` that `node.type` would throw; a string or array value has
`undefined` `type` and `content`, so it falls through to `return ''`.
A `text` node yields `node.text || ''`; any other node defers to its
`content` via `extractContent`. -/
def extractText : JsVal → Except String String
  | .undefined => .error "TypeError: Cannot read properties of undefined"
  | .str _ => .ok ""
  | .arr _ => .ok ""
  | .node ty tx c =>
    if ty.isStrEq "text" then .ok (jsTextOrEmpty tx) else extractContent c
termination_by structural x => x

/-- Models `if (node.content && Array.isArray(node.content)) return
node.content.map(extractText).join(''); return '';` — only an array
`content` is entered; anything else contributes `''`. -/
def extractContent : JsVal → Except String String
  | .arr elems =>
    match extractTextList elems with
    | .ok parts => .ok (String.join parts)
    | .error e => .error e
  | .undefined => .ok ""
  | .str _ => .ok ""
  | .node _ _ _ => .ok ""
termination_by structural c => c

/-- Left-to-right `content.map(extractText)`: the first thrown `TypeError`
propagates, as JavaScript's `Array.prototype.map` would. -/
def extractTextList : List JsVal → Except String (List String)
  | [] => .ok []
  | x :: xs =>
    match extractText x with
    | .error e => .error e
    | .ok s =>
      match extractTextList xs with
      | .error e => .error e
      | .ok rest => .ok (s :: rest)
termination_by structural xs => xs

end

/-- Decoder entry `extractTextFromADF(adf)` (products.service.ts lines 374–388): falsy
`adf` or falsy `adf.content` yield `''`; otherwise the code calls
`adf.content.map(extractText)` with no `Array.isArray` guard, so a truthy
non-array `content` throws a `TypeError`; an array `content` maps the
inner closure over its elements, joins with `'\n'` and trims. -/
def extractTextFromADF (adf : JsVal) : Except String String :=
  if ¬ adf.truthy then .ok ""
  else if ¬ adf.jsContent.truthy then .ok ""
  else
    match adf.jsContent with
    | .arr elems =>
      match extractTextList elems with
      | .ok parts => .ok (jsTrim (String.intercalate "\n" parts))
      | .error e => .error e
    | _ => .error "TypeError: adf.content.map is not a function"

/-- JavaScript truthiness of a possibly-absent string (`undefined` and `''`
are falsy). -/
def strTruthy : Option String → Bool
  | some s => s ≠ ""
  | none => false

/-- JavaScript `v || d` on a possibly-absent string: the default replaces a
falsy value. -/
def jsOr (v : Option String) (d : String) : String :=
  match v with
  | some s => if s = "" then d else s
  | none => d

/-- The single-paragraph ADF document that `updateIssue`
(jira.service.ts lines 369–381) builds around a plain-text description:
`{type:"doc", version:1, content:[{type:"paragraph", content:[{type:"text",
text: s}]}]}` (the `version` field is never read by the decoder). -/
def encodeADF (s : String) : JsVal :=
  .node (.str "doc") .undefined
    (.arr [.node (.str "paragraph") .undefined
      (.arr [.node (.str "text") (.str s) .undefined])])

/-- The `fields` object `updateIssue` (jira.service.ts lines 365–394) sends
to `PUT /rest/api/3/issue/…`: `summary` only when the argument is truthy,
`description` only when truthy, encoded as a single-paragraph ADF doc. -/
structure UpdateIssueFields where
  summary : Option String
  description : Option JsVal

/-- Build the update payload exactly as `updateIssue` does:
`if (dto.summary) fields.summary = dto.summary;
 if (dto.description) fields.description = {type:"doc", …}`. -/
def updateIssueFields (summary description : Option String) : UpdateIssueFields :=
  { summary := if strTruthy summary then summary else none
    description :=
      if strTruthy description then some (encodeADF (description.getD "")) else none }

/-- One entry of the live transition list returned by
`GET /rest/api/3/issue/{key}/transitions`: id, display name, destination
status name (`t.to?.name`), and the optional `fields` metadata describing a
required resolution. -/
structure ResolutionValue where
  id : String
  name : Option String
deriving Repr

structure ResolutionField where
  required : Bool
  allowedValues : List ResolutionValue
deriving Repr

structure Transition where
  id : String
  name : String
  toName : Option String
  resolution : Option ResolutionField
deriving Repr

/-- The transition payload `updateStatus` finally posts:
`{transition:{id}, fields?:{resolution:{id}}}`. -/
structure TransitionPayload where
  transitionId : String
  resolutionId : Option String
deriving Repr

/-- Case-insensitive substring test `r.name?.toLowerCase().includes(pat)`;
an absent name never matches (optional chaining yields `undefined`, and
`undefined?.includes` is never reached because `?.` already made the whole
expression `undefined`, which is falsy). -/
def nameIncludes (name : Option String) (pat : String) : Bool :=
  match name with
  | some n => decide ((pat.data.map Char.toLower) <:+: (n.data.map Char.toLower))
  | none => false

/-- The `Available transitions: ID: …, Name: …, To: …; …` enumeration used
in both failure messages of `updateStatus`. -/
def availableTransitionsMsg (ts : List Transition) : String :=
  String.intercalate "; "
    (ts.map fun t => "ID: " ++ t.id ++ ", Name: " ++ t.name ++ ", To: " ++ jsOr t.toName "N/A")

/-- Pick the resolution the code attaches when the resolved transition
declares a required resolution field:  a value whose name contains
drop/cancel/close (case-insensitive), else the first allowed value
(`|| resolutions[0]`); when the list is empty nothing is attached. -/
def pickResolution (rs : List ResolutionValue) : Option ResolutionValue :=
  match rs.find? (fun r =>
      nameIncludes r.name "drop" || nameIncludes r.name "cancel" ||
      nameIncludes r.name "close") with
  | some r => some r
  | none => rs.head?

/-- The resolution id attached to the payload for a resolved transition
(`if (targetTransition.fields) { … resolution.required … }`). -/
def resolutionFor (t : Transition) : Option String :=
  match t.resolution with
  | some rf =>
    if rf.required then
      match pickResolution rf.allowedValues with
      | some r => some r.id
      | none => none
    else none
  | none => none

/-- Resolver `updateStatus` (jira.service.ts, lines 421–519): given the configured
`JIRA_DROPPED_TRANSITION_ID` / `JIRA_DROPPED_STATUS_NAME` and the live
transition list fetched for `issueKey` in the same call, resolve the
transition to execute or fail.  An explicit configured id must occur in the
live list (compared as strings); otherwise the error enumerates the live
alternatives.  Else the first transition whose destination name or own name
equals the configured status name is used. -/
def updateStatus (transitionId statusName : Option String) (ts : List Transition)
    (issueKey : String) : Except String TransitionPayload :=
  if ¬ strTruthy transitionId ∧ ¬ strTruthy statusName then
    .error "JIRA_DROPPED_TRANSITION_ID or JIRA_DROPPED_STATUS_NAME must be configured"
  else if strTruthy transitionId then
    match ts.find? (fun t => t.id = transitionId.getD "") with
    | some t => .ok { transitionId := t.id, resolutionId := resolutionFor t }
    | none =>
      .error ("Transition ID " ++ transitionId.getD "" ++ " is not available for issue " ++
        issueKey ++ ". Current status may not allow this transition. Available transitions: " ++
        availableTransitionsMsg ts)
  else
    match ts.find? (fun t =>
        (match t.toName with | some n => n = statusName.getD "" | none => false) ||
          t.name = statusName.getD "") with
    | some t => .ok { transitionId := t.id, resolutionId := resolutionFor t }
    | none =>
      .error ("No transition found to status \"" ++ statusName.getD "" ++ "\" for issue " ++
        issueKey ++ ". Available transitions: " ++ availableTransitionsMsg ts)

/-! ## The product record and the service operations
(`src/products/products.service.ts`).  Repository writes are modelled by
returning the saved record; `new Date()` timestamps are explicit `Nat`
parameters; a thrown exception is an `Except.error`; the outcome of each
remote call is an explicit parameter, since the remote system is a fallible
external collaborator. -/

/-- The `Product` entity (product.entity.ts): nullable columns are
`Option`s, timestamps are `Nat`s. -/
structure Product where
  id : Nat
  name : String
  description : Option String
  externalRef : Option String
  jiraIssueKey : Option String
  jiraIssueId : Option String
  ticketStatus : Option String
  deletedAt : Option Nat
  jiraSyncStatus : Option String
  jiraLastSyncAt : Option Nat
deriving Repr, DecidableEq

/-- Outcome of a remote `createIssue` call: the created issue's key and id,
or a thrown error. -/
inductive CreateIssueOutcome where
  | ok (jiraKey jiraId : String)
  | fail
deriving Repr, DecidableEq

/-- Outcome of a remote call that returns nothing (`updateIssue`,
`updateStatus`): success or a thrown error. -/
inductive RemoteCallOutcome where
  | ok
  | fail
deriving Repr, DecidableEq

/-- Response filter `filterProductResponse` (products.service.ts lines 448–458): the
response shape returned by create and update. -/
structure ProductResponse where
  id : Nat
  name : String
  description : Option String
  externalRef : Option String
  jiraIssueKey : Option String
  jiraIssueId : Option String
  jiraSyncStatus : Option String
deriving Repr, DecidableEq

def filterProductResponse (p : Product) : ProductResponse :=
  { id := p.id, name := p.name, description := p.description,
    externalRef := p.externalRef, jiraIssueKey := p.jiraIssueKey,
    jiraIssueId := p.jiraIssueId, jiraSyncStatus := p.jiraSyncStatus }

/-- Helper `createJiraIssueForProduct` (products.service.ts lines 425–446): try to
create the remote issue; on success store key/id, `OK` and the sync
timestamp; on failure store only `jiraSyncStatus = 'FAILED'`.  Either way
the record is saved; the saved record is returned. -/
def createJiraIssueForProduct (p : Product) (outcome : CreateIssueOutcome)
    (now : Nat) : Product :=
  match outcome with
  | .ok k i =>
    { p with jiraIssueKey := some k, jiraIssueId := some i,
             jiraSyncStatus := some "OK", jiraLastSyncAt := some now }
  | .fail => { p with jiraSyncStatus := some "FAILED" }

/-- Operation `createProduct` (products.service.ts lines 221–226): save the record
with `jiraSyncStatus = 'PENDING'`, then run `createJiraIssueForProduct`,
then return `filterProductResponse`.  Result: (final saved record,
response). -/
def createProduct (name : String) (description externalRef : Option String)
    (outcome : CreateIssueOutcome) (newId now : Nat) : Product × ProductResponse :=
  let saved : Product :=
    { id := newId, name := name, description := description,
      externalRef := externalRef, jiraIssueKey := none, jiraIssueId := none,
      ticketStatus := none, deletedAt := none,
      jiraSyncStatus := some "PENDING", jiraLastSyncAt := none }
  let final := createJiraIssueForProduct saved outcome now
  (final, filterProductResponse final)

/-- The `UpdateProductDto`: the caller-supplied partial update; `none` means
the key is absent from the DTO. -/
structure UpdateProductDto where
  name : Option String
  description : Option String
  externalRef : Option String
deriving Repr, DecidableEq

/-- Models `Object.assign(product, dto)`: present DTO keys overwrite the record's
fields. -/
def applyDto (p : Product) (dto : UpdateProductDto) : Product :=
  { p with
    name := dto.name.getD p.name,
    description := match dto.description with
      | some d => some d
      | none => p.description,
    externalRef := match dto.externalRef with
      | some r => some r
      | none => p.externalRef }

/-- What `update` did besides its return value: the payload sent to the
remote `updateIssue` (if that path ran) and whether the missing-link
fall-through to `createJiraIssueForProduct` ran. -/
structure UpdateResult where
  product : Product
  response : ProductResponse
  sentUpdate : Option UpdateIssueFields
  attemptedCreate : Bool

/-- Operation `update` (products.service.ts lines 229–260): find the record (absent →
`NotFoundException`), `Object.assign` the DTO and save, then: if a remote
key is linked, push `{summary: product.name, description:
product.description}` through `updateIssue` — success stores `OK` and the
timestamp, failure stores only `FAILED` (no rethrow); if no key is linked,
fall through to `createJiraIssueForProduct`.  Returns
`filterProductResponse` of the final record. -/
def update (st : Option Product) (dto : UpdateProductDto)
    (updOutcome : RemoteCallOutcome) (createOutcome : CreateIssueOutcome)
    (now : Nat) : Except String UpdateResult :=
  match st with
  | none => .error "Product not found"
  | some p0 =>
    let p1 := applyDto p0 dto
    if strTruthy p1.jiraIssueKey then
      let payload := updateIssueFields (some p1.name) p1.description
      match updOutcome with
      | .ok =>
        let p2 := { p1 with jiraSyncStatus := some "OK", jiraLastSyncAt := some now }
        .ok { product := p2, response := filterProductResponse p2,
              sentUpdate := some payload, attemptedCreate := false }
      | .fail =>
        let p2 := { p1 with jiraSyncStatus := some "FAILED" }
        .ok { product := p2, response := filterProductResponse p2,
              sentUpdate := some payload, attemptedCreate := false }
    else
      let p2 := createJiraIssueForProduct p1 createOutcome now
      .ok { product := p2, response := filterProductResponse p2,
            sentUpdate := none, attemptedCreate := true }

/-- The object `remove` returns. -/
structure RemoveResult where
  id : Nat
  deleted : Bool
  deletedAt : Option Nat
  jiraTransitioned : Bool
  jiraSyncStatus : Option String
deriving Repr, DecidableEq

/-- Operation `remove` (products.service.ts lines 390–422): find the record (absent →
`NotFoundException`); if a remote key is linked, attempt the drop
transition — success stores `OK` and the sync timestamp, failure stores
only `FAILED` and proceeds; then set `deletedAt` and save.  The returned
`jiraTransitioned` is literally `product.jiraIssueKey ? true : false`. -/
def remove (st : Option Product) (transitionOutcome : RemoteCallOutcome)
    (tSync tDel : Nat) : Except String (Product × RemoveResult) :=
  match st with
  | none => .error "Product not found"
  | some p0 =>
    let p1 :=
      if strTruthy p0.jiraIssueKey then
        match transitionOutcome with
        | .ok => { p0 with jiraSyncStatus := some "OK", jiraLastSyncAt := some tSync }
        | .fail => { p0 with jiraSyncStatus := some "FAILED" }
      else p0
    let p2 := { p1 with deletedAt := some tDel }
    .ok (p2,
      { id := p2.id, deleted := true, deletedAt := p2.deletedAt,
        jiraTransitioned := strTruthy p2.jiraIssueKey,
        jiraSyncStatus := p2.jiraSyncStatus })

/-! ## The inbound webhook reconciler (`handleJiraWebhook`,
products.service.ts lines 283–371).  The payload is modelled after the one
normalization step the code performs (`payload.issue || payload`,
`issue?.fields || {}`): a remote key, an issue id, and the three field
snapshots.  The store is modelled as the record holding that remote key
(`findOneBy({jiraIssueKey})`), if any. -/

structure WebhookFields where
  summary : Option String     -- fields.summary
  statusName : Option String  -- fields.status?.name
  description : JsVal         -- fields.description: absent, plain string, or ADF

structure WebhookPayload where
  key : Option String         -- issue?.key
  issueId : Option String     -- issue?.id?.toString()
  fields : WebhookFields

/-- The description-snapshot text, computed identically in the back-fill
branch (lines 301–309) and the diff branch (lines 343–350): a truthy string
is taken as-is, a node with `type === 'doc'` and truthy `content` is
decoded from ADF (which can throw), anything else contributes `''`. -/
def descTextOf (d : JsVal) : Except String String :=
  if d.truthy then
    match d with
    | .str s => .ok s
    | _ =>
      if d.jsType.isStrEq "doc" && d.jsContent.truthy then extractTextFromADF d
      else .ok ""
  else .ok ""

/-- JavaScript `v || null` on a possibly-absent string: `null` when falsy. -/
def jsOrNull (v : Option String) : Option String :=
  match v with
  | some s => if s = "" then none else some s
  | none => none

/-- Models `if (fields.summary && fields.summary !== product.name)` (line 330). -/
def nameDiff (f : WebhookFields) (prod : Product) : Bool :=
  strTruthy f.summary && (f.summary.getD "" != prod.name)

/-- Models `if (newStatus && newStatus !== product.ticketStatus)` (line 337); a
string compared against SQL `NULL` differs. -/
def statusDiff (f : WebhookFields) (prod : Product) : Bool :=
  strTruthy f.statusName &&
    (match prod.ticketStatus with
     | some t => f.statusName.getD "" != t
     | none => true)

/-- Models `if (descriptionText && descriptionText !== product.description)`
(line 352). -/
def descDiff (descText : String) (prod : Product) : Bool :=
  (descText != "") &&
    (match prod.description with
     | some d => descText != d
     | none => true)

/-- Steps 3–4 of `handleJiraWebhook` (lines 326–368): compute the
field-by-field diff against the current record and save once iff the
changelog is non-empty.  Result: (record state, number of writes performed
by this step, normal return or propagated exception). -/
def webhookDiffStep (f : WebhookFields) (prod : Product) (now : Nat) :
    Option Product × Nat × Except String Unit :=
  match descTextOf f.description with
  | .error e => (some prod, 0, .error e)
  | .ok descText =>
    if nameDiff f prod || statusDiff f prod || descDiff descText prod then
      let prod' := { prod with
        name := if nameDiff f prod then f.summary.getD "" else prod.name,
        ticketStatus :=
          if statusDiff f prod then some (f.statusName.getD "") else prod.ticketStatus,
        description := if descDiff descText prod then some descText else prod.description,
        jiraLastSyncAt := some now,
        jiraSyncStatus := some "OK" }
      (some prod', 1, .ok ())
    else
      (some prod, 0, .ok ())

/-- Step 2a of `handleJiraWebhook` (lines 299–323): the record back-filled
from a notification that references an unknown remote key. -/
def createdRecord (p : WebhookPayload) (descText : String) (newId now : Nat) :
    Product :=
  { id := newId
    name := jsOr p.fields.summary ("Jira Issue " ++ p.key.getD "")
    description := some descText
    externalRef := none
    jiraIssueKey := p.key
    jiraIssueId := jsOrNull p.issueId
    ticketStatus := jsOrNull p.fields.statusName
    deletedAt := none
    jiraSyncStatus := some "OK"
    jiraLastSyncAt := some now }

/-- Reconciler `handleJiraWebhook`: acknowledge key-less payloads without touching the
store; back-fill a missing record from the notification (one write), then
run the diff step.  Result: (record state, total writes, normal return or
propagated exception).  A propagated exception performs no write: in both
branches the ADF decode runs before the corresponding `save`. -/
def handleJiraWebhook (p : WebhookPayload) (st : Option Product)
    (newId now : Nat) : Option Product × Nat × Except String Unit :=
  if ¬ strTruthy p.key then (st, 0, .ok ())
  else
    match st with
    | some prod => webhookDiffStep p.fields prod now
    | none =>
      match descTextOf p.fields.description with
      | .error e => (none, 0, .error e)
      | .ok descText =>
        let (st', w, r) := webhookDiffStep p.fields (createdRecord p descText newId now) now
        (st', w + 1, r)

/-! ## Concrete fixtures used by the counterexample and witness theorems. -/

/-- A linked, previously synced record. -/
def sampleProduct : Product :=
  { id := 1
    name := "Widget"
    description := some "desc"
    externalRef := none
    jiraIssueKey := some "PROJ-1"
    jiraIssueId := some "1001"
    ticketStatus := some "TO DO"
    deletedAt := none
    jiraSyncStatus := some "OK"
    jiraLastSyncAt := some 5 }

end JiraSync

namespace JiraSync

/-- C1: `remove` on a record whose remote transition call fails does set
`deletedAt`, persist the soft deletion and set `syncStatus = FAILED`, but
the returned `jiraTransitioned` flag is `true`, not `false`: the code
computes it as `product.jiraIssueKey ? true : false`, so it reports whether
a remote link existed, not the remote transition outcome.  This theorem
evaluates `remove` at the failing input (a linked record, transition call
fails), exhibiting the divergence from the claim and from the spec scenario
`{deleted:true, jiraTransitioned:false}`. -/
theorem remove_failed_transition_still_reports_transitioned :
    remove (some sampleProduct) .fail 9 10 =
      .ok ({ sampleProduct with jiraSyncStatus := some "FAILED", deletedAt := some 10 },
        { id := 1
          deleted := true
          deletedAt := some 10
          jiraTransitioned := true   -- the claim and spec require `false` here
          jiraSyncStatus := some "FAILED" }) := by
  rfl

/-- C2 counterexample: a failed outbound attempt does not update
`jiraLastSyncAt`.  The linked record last synced at time 5; the remote
issue-creation attempt at time 9 fails; the persisted record still carries
`jiraLastSyncAt = 5`, not the time of the failed attempt. -/
theorem failed_attempt_keeps_stale_lastSyncAt :
    (createJiraIssueForProduct sampleProduct .fail 9).jiraLastSyncAt = some 5 ∧
      (createJiraIssueForProduct sampleProduct .fail 9).jiraLastSyncAt ≠ some 9 := by
  exact ⟨rfl, by decide⟩

/-- Branch lemma: `update` on a record that (after `Object.assign`) carries
a truthy remote key, successful remote call. -/
theorem update_linked_ok (p : Product) (dto : UpdateProductDto)
    (co : CreateIssueOutcome) (t : Nat)
    (hk : strTruthy (applyDto p dto).jiraIssueKey = true) :
    update (some p) dto .ok co t =
      .ok { product := { applyDto p dto with jiraSyncStatus := some "OK", jiraLastSyncAt := some t }
            response := filterProductResponse { applyDto p dto with jiraSyncStatus := some "OK", jiraLastSyncAt := some t }
            sentUpdate := some (updateIssueFields (some (applyDto p dto).name) (applyDto p dto).description)
            attemptedCreate := false } := by
  simp [update, hk]

/-- Branch lemma: `update` on a record that carries a truthy remote key,
failing remote call. -/
theorem update_linked_fail (p : Product) (dto : UpdateProductDto)
    (co : CreateIssueOutcome) (t : Nat)
    (hk : strTruthy (applyDto p dto).jiraIssueKey = true) :
    update (some p) dto .fail co t =
      .ok { product := { applyDto p dto with jiraSyncStatus := some "FAILED" }
            response := filterProductResponse
              { applyDto p dto with jiraSyncStatus := some "FAILED" }
            sentUpdate := some (updateIssueFields (some (applyDto p dto).name)
              (applyDto p dto).description)
            attemptedCreate := false } := by
  simp [update, hk]

/-- Branch lemma: `update` on a record without a truthy remote key falls
through to `createJiraIssueForProduct`. -/
theorem update_unlinked (p : Product) (dto : UpdateProductDto)
    (uo : RemoteCallOutcome) (co : CreateIssueOutcome) (t : Nat)
    (hk : strTruthy (applyDto p dto).jiraIssueKey = false) :
    update (some p) dto uo co t =
      .ok { product := createJiraIssueForProduct (applyDto p dto) co t
            response := filterProductResponse (createJiraIssueForProduct (applyDto p dto) co t)
            sentUpdate := none
            attemptedCreate := true } := by
  cases uo <;> simp [update, hk]

/-- Branch lemma: `remove` on a linked record, with either transition
outcome. -/
theorem remove_linked (p : Product) (uo : RemoteCallOutcome) (t1 t2 : Nat)
    (hk : strTruthy p.jiraIssueKey = true) :
    remove (some p) uo t1 t2 =
      (match uo with
       | .ok => .ok ({ p with jiraSyncStatus := some "OK", jiraLastSyncAt := some t1, deletedAt := some t2 },
           { id := p.id
             deleted := true
             deletedAt := some t2
             jiraTransitioned := strTruthy p.jiraIssueKey
             jiraSyncStatus := some "OK" })
       | .fail => .ok ({ p with jiraSyncStatus := some "FAILED", deletedAt := some t2 },
           { id := p.id
             deleted := true
             deletedAt := some t2
             jiraTransitioned := strTruthy p.jiraIssueKey
             jiraSyncStatus := some "FAILED" })) := by
  cases uo <;> simp [remove, hk]

/-- C2 amended: `jiraLastSyncAt` is updated to the attempt time only on a
*successful* outbound call; every failure path (`createJiraIssueForProduct`,
the remote-update branch of `update`, the transition branch of `remove`)
writes only `jiraSyncStatus = 'FAILED'` and leaves `jiraLastSyncAt` at its
previous value. -/
theorem lastSyncAt_updated_only_on_success :
    (∀ (p : Product) (k i : String) (t : Nat),
      (createJiraIssueForProduct p (.ok k i) t).jiraLastSyncAt = some t ∧
      (createJiraIssueForProduct p .fail t).jiraLastSyncAt = p.jiraLastSyncAt ∧
      (createJiraIssueForProduct p .fail t).jiraSyncStatus = some "FAILED") ∧
    (∀ (p : Product) (dto : UpdateProductDto) (co : CreateIssueOutcome) (t : Nat),
      strTruthy p.jiraIssueKey = true →
      (∃ r, update (some p) dto .ok co t = .ok r ∧
        r.product.jiraLastSyncAt = some t) ∧
      (∃ r, update (some p) dto .fail co t = .ok r ∧
        r.product.jiraLastSyncAt = p.jiraLastSyncAt ∧
        r.product.jiraSyncStatus = some "FAILED")) ∧
    (∀ (p : Product) (t1 t2 : Nat),
      strTruthy p.jiraIssueKey = true →
      (∃ q rr, remove (some p) .ok t1 t2 = .ok (q, rr) ∧
        q.jiraLastSyncAt = some t1) ∧
      (∃ q rr, remove (some p) .fail t1 t2 = .ok (q, rr) ∧
        q.jiraLastSyncAt = p.jiraLastSyncAt ∧
        q.jiraSyncStatus = some "FAILED")) := by
  refine ⟨fun p k i t => ⟨rfl, rfl, rfl⟩, fun p dto co t hk => ?_, fun p t1 t2 hk => ?_⟩
  · have hk' : strTruthy (applyDto p dto).jiraIssueKey = true := hk
    exact ⟨⟨_, update_linked_ok p dto co t hk', rfl⟩,
           ⟨_, update_linked_fail p dto co t hk', rfl, rfl⟩⟩
  · exact ⟨⟨_, _, remove_linked p .ok t1 t2 hk, rfl⟩,
           ⟨_, _, remove_linked p .fail t1 t2 hk, rfl, rfl⟩⟩

/-- C2 witness: the amended theorem applied at the sample record. -/
theorem lastSyncAt_updated_only_on_success_witness :
    ∃ r, update (some sampleProduct) ⟨some "New", none, none⟩ .fail .fail 9 = .ok r ∧
      r.product.jiraLastSyncAt = some 5 ∧
      r.product.jiraSyncStatus = some "FAILED" := by
  have h := (lastSyncAt_updated_only_on_success.2.1 sampleProduct
    ⟨some "New", none, none⟩ .fail 9 (by decide)).2
  exact h

/-- C6: whatever the remote outcome, `createProduct` persists and returns a
record carrying the caller's requested name and description; when the
remote issue-creation call fails the remote fields stay unset and
`syncStatus = FAILED`; when it succeeds the same record carries the
returned key/id and `syncStatus = OK`. -/
theorem createProduct_local_durability :
    ∀ (name : String) (desc ref : Option String) (nid t : Nat) (k i : String),
      ((createProduct name desc ref .fail nid t).1.name = name ∧
       (createProduct name desc ref .fail nid t).1.description = desc ∧
       (createProduct name desc ref .fail nid t).1.jiraIssueKey = none ∧
       (createProduct name desc ref .fail nid t).1.jiraIssueId = none ∧
       (createProduct name desc ref .fail nid t).1.jiraSyncStatus = some "FAILED" ∧
       (createProduct name desc ref .fail nid t).2 =
         filterProductResponse (createProduct name desc ref .fail nid t).1 ∧
       (createProduct name desc ref .fail nid t).2.name = name ∧
       (createProduct name desc ref .fail nid t).2.description = desc) ∧
      ((createProduct name desc ref (.ok k i) nid t).1.name = name ∧
       (createProduct name desc ref (.ok k i) nid t).1.description = desc ∧
       (createProduct name desc ref (.ok k i) nid t).1.jiraIssueKey = some k ∧
       (createProduct name desc ref (.ok k i) nid t).1.jiraIssueId = some i ∧
       (createProduct name desc ref (.ok k i) nid t).1.jiraSyncStatus = some "OK") :=
  fun _ _ _ _ _ _ _ =>
    ⟨⟨rfl, rfl, rfl, rfl, rfl, rfl, rfl, rfl⟩, rfl, rfl, rfl, rfl, rfl⟩

/-- C7: updating an existing product that has no remote link does not fail:
the DTO's field changes are persisted on the returned record and the
operation falls through to the remote-issue-creation path (and on a
successful fall-through create the record even acquires the new key). -/
theorem update_without_link_falls_through_to_create :
    ∀ (p : Product) (dto : UpdateProductDto) (uo : RemoteCallOutcome)
      (co : CreateIssueOutcome) (t : Nat),
      p.jiraIssueKey = none →
      ∃ r, update (some p) dto uo co t = .ok r ∧
        r.attemptedCreate = true ∧
        r.sentUpdate = none ∧
        (∀ n, dto.name = some n → r.product.name = n) ∧
        (∀ d, dto.description = some d → r.product.description = some d) ∧
        (∀ k i, co = .ok k i → r.product.jiraIssueKey = some k) := by
  intro p dto uo co t hk
  have hfalse : strTruthy (applyDto p dto).jiraIssueKey = false := by
    simp [applyDto, hk, strTruthy]
  refine ⟨_, update_unlinked p dto uo co t hfalse, rfl, rfl, ?_, ?_, ?_⟩
  · intro n hn
    cases co <;> simp [createJiraIssueForProduct, applyDto, hn]
  · intro d hd
    cases co <;> simp [createJiraIssueForProduct, applyDto, hd]
  · intro k i hco
    subst hco
    simp [createJiraIssueForProduct]

/-- C7 witness: a concrete unlinked record updated with a new name; the
fall-through create succeeds and links the record. -/
theorem update_without_link_falls_through_to_create_witness :
    ∃ r, update (some { sampleProduct with jiraIssueKey := none })
        ⟨some "NewName", none, none⟩ .ok (.ok "PROJ-9" "1009") 7 = .ok r ∧
      r.attemptedCreate = true ∧
      r.product.name = "NewName" ∧
      r.product.jiraIssueKey = some "PROJ-9" := by
  obtain ⟨r, h1, h2, _, h4, _, h6⟩ :=
    update_without_link_falls_through_to_create
      { sampleProduct with jiraIssueKey := none }
      ⟨some "NewName", none, none⟩ .ok (.ok "PROJ-9" "1009") 7 rfl
  exact ⟨r, h1, h2, h4 _ rfl, h6 _ _ rfl⟩

/-- C9: a falsy (absent or empty) summary or description is omitted from
the remote update payload entirely; in particular an `update` that clears
the local description to `''` sends a payload without a description field,
so the clearing never reaches the remote issue. -/
theorem falsy_fields_omitted_from_update_payload :
    (∀ (s d : Option String), (d = none ∨ d = some "") →
      (updateIssueFields s d).description = none) ∧
    (∀ (s d : Option String), (s = none ∨ s = some "") →
      (updateIssueFields s d).summary = none) ∧
    (∀ (p : Product) (dto : UpdateProductDto) (uo : RemoteCallOutcome)
       (co : CreateIssueOutcome) (t : Nat),
      strTruthy p.jiraIssueKey = true →
      dto.description = some "" →
      ∃ r f, update (some p) dto uo co t = .ok r ∧
        r.sentUpdate = some f ∧ f.description = none) := by
  refine ⟨?_, ?_, ?_⟩
  · rintro s d (rfl | rfl) <;> simp [updateIssueFields, strTruthy]
  · rintro s d (rfl | rfl) <;> simp [updateIssueFields, strTruthy]
  · intro p dto uo co t hk hd
    have hk' : strTruthy (applyDto p dto).jiraIssueKey = true := by
      simpa [applyDto] using hk
    have hdesc : (applyDto p dto).description = some "" := by
      simp [applyDto, hd]
    cases uo
    · exact ⟨_, _, update_linked_ok p dto co t hk', rfl, by
        simp [updateIssueFields, hdesc, strTruthy]⟩
    · exact ⟨_, _, update_linked_fail p dto co t hk', rfl, by
        simp [updateIssueFields, hdesc, strTruthy]⟩

/-- C9 witness: clearing the sample product's description sends a payload
with no description field. -/
theorem falsy_fields_omitted_from_update_payload_witness :
    ((updateIssueFields (some "Widget") (some "")).description = none) ∧
    ∃ r f, update (some sampleProduct) ⟨none, some "", none⟩ .ok .fail 9 = .ok r ∧
      r.sentUpdate = some f ∧ f.description = none := by
  refine ⟨falsy_fields_omitted_from_update_payload.1 (some "Widget") (some "") (Or.inr rfl), ?_⟩
  exact falsy_fields_omitted_from_update_payload.2.2 sampleProduct
    ⟨none, some "", none⟩ .ok .fail 9 (by decide) rfl

set_option maxRecDepth 8192 in
/-- C5: the transition resolver `updateStatus` (1) only ever executes a
transition id taken from the live transition list fetched in the same call,
and (2) at the concrete input of the claim — configured id `"999"`, live
list `[{id:"123", name:"Close", to:"Closed"}]` — it fails, and the failure
message contains the requested identifier `"999"` and the live
alternative's id `"123"` and name `"Close"`. -/
theorem resolver_never_leaves_live_list :
    (∀ (tid sn : Option String) (ts : List Transition) (key : String)
       (pl : TransitionPayload),
      updateStatus tid sn ts key = .ok pl →
      pl.transitionId ∈ ts.map Transition.id) ∧
    (∃ msg, updateStatus (some "999") none
        [⟨"123", "Close", some "Closed", none⟩] "PROJ-1" = .error msg ∧
      "999".data <:+: msg.data ∧ "123".data <:+: msg.data ∧
      "Close".data <:+: msg.data) := by
  constructor
  · intro tid sn ts key pl h
    unfold updateStatus at h
    split at h
    · exact absurd h (by simp)
    · split at h
      · rcases hf : ts.find? (fun t => t.id = tid.getD "") with _ | t
        · rw [hf] at h
          exact absurd h (by simp)
        · rw [hf] at h
          have ht : t ∈ ts := List.mem_of_find?_eq_some hf
          have hid : pl.transitionId = t.id := by
            cases h
            rfl
          rw [hid]
          exact List.mem_map_of_mem Transition.id ht
      · rcases hf : ts.find? (fun t =>
            (match t.toName with | some n => n = sn.getD "" | none => false) ||
              t.name = sn.getD "") with _ | t
        · rw [hf] at h
          exact absurd h (by simp)
        · rw [hf] at h
          have ht : t ∈ ts := List.mem_of_find?_eq_some hf
          have hid : pl.transitionId = t.id := by
            cases h
            rfl
          rw [hid]
          exact List.mem_map_of_mem Transition.id ht
  · exact ⟨_, rfl, by decide, by decide, by decide⟩

/-- C5 witness: the membership half of the theorem applied to a concrete
successful resolution — configured id `"123"` against the same live list
resolves, and the executed id is in the live list. -/
theorem resolver_never_leaves_live_list_witness :
    "123" ∈ ([⟨"123", "Close", some "Closed", none⟩] :
        List Transition).map Transition.id := by
  exact resolver_never_leaves_live_list.1 (some "123") none
    [⟨"123", "Close", some "Closed", none⟩] "PROJ-1"
    ⟨"123", none⟩ rfl

/-- C3: round trip of the document codec.  For every single-line,
whitespace-trimmed string `s`, decoding the single-paragraph document that
the encoder wraps around `s` returns `s` exactly. -/
theorem decode_encode_roundtrip :
    ∀ s : String, '\n' ∉ s.data → jsTrim s = s →
      extractTextFromADF (encodeADF s) = .ok s := by
  intro s _ ht
  have h1 : extractTextFromADF (encodeADF s) = .ok (jsTrim s) := rfl
  rw [h1, ht]

/-- C3 witness: the round trip at the concrete single-line trimmed string
`"hello world"`. -/
theorem decode_encode_roundtrip_witness :
    ('\n' ∉ "hello world".data) ∧
      extractTextFromADF (encodeADF "hello world") = .ok "hello world" :=
  ⟨by decide, decode_encode_roundtrip "hello world" (by decide) (by decide)⟩

/-- C8 counterexample: the decoder is *not* total on arbitrary documents.
On `{type:'doc', content:'x'}` — a document `handleJiraWebhook` forwards to
`extractTextFromADF`, since its `type` is `'doc'` and its `content` is
truthy — the decoder evaluates `adf.content.map(...)` on a string, a
`TypeError`, because the top level has no `Array.isArray` guard. -/
theorem decoder_raises_on_nonarray_content :
    extractTextFromADF (.node (.str "doc") .undefined (.str "x")) =
      .error "TypeError: adf.content.map is not a function" := rfl

mutual

/-- Well-formedness for the inner decoder: no `null`/`undefined` value in a
position the recursive `extractText` closure is applied to (applying it to
`null`/`undefined` throws).  Strings and arrays are fine (they decode to
`''`); a non-`text` node recurses into an array `content`. -/
def goodNode : JsVal → Bool
  | .undefined => false
  | .str _ => true
  | .arr _ => true
  | .node ty _ c =>
    if ty.isStrEq "text" then true
    else
      match c with
      | .arr elems => goodList elems
      | _ => true
termination_by structural x => x

def goodList : List JsVal → Bool
  | [] => true
  | x :: xs => goodNode x && goodList xs
termination_by structural xs => xs

end

/-- Well-formedness for a whole document: either falsy, or falsy `content`,
or an array `content` all of whose elements are `goodNode`. -/
def goodDoc (adf : JsVal) : Bool :=
  !adf.truthy || !adf.jsContent.truthy ||
    (match adf.jsContent with
     | .arr elems => goodList elems
     | _ => false)

/-- Helper: the element-wise map never throws when every element decodes. -/
theorem extractTextList_ok (elems : List JsVal)
    (h : ∀ x ∈ elems, ∃ s, extractText x = .ok s) :
    ∃ ss, extractTextList elems = .ok ss := by
  induction elems with
  | nil => exact ⟨[], rfl⟩
  | cons x xs ih =>
    obtain ⟨s, hs⟩ := h x (List.mem_cons_self x xs)
    obtain ⟨ss, hss⟩ := ih (fun y hy => h y (List.mem_cons_of_mem x hy))
    exact ⟨s :: ss, by simp [extractTextList, hs, hss]⟩

/-- Helper: a node whose `content` is not an array never throws, whatever
its type (recursion never enters a non-array `content`). -/
theorem extractText_node_nonarr (ty tx c : JsVal)
    (hc : ∀ elems, c ≠ .arr elems) :
    ∃ s, extractText (.node ty tx c) = .ok s := by
  by_cases hty : ty.isStrEq "text" = true
  · cases tx with
    | str t => exact ⟨t, by simp [extractText, hty, jsTextOrEmpty]⟩
    | undefined => exact ⟨"", by simp [extractText, hty, jsTextOrEmpty]⟩
    | arr l => exact ⟨"", by simp [extractText, hty, jsTextOrEmpty]⟩
    | node u v w => exact ⟨"", by simp [extractText, hty, jsTextOrEmpty]⟩
  · cases c with
    | arr elems => exact absurd rfl (hc elems)
    | undefined => exact ⟨"", by simp [extractText, hty, extractContent]⟩
    | str t => exact ⟨"", by simp [extractText, hty, extractContent]⟩
    | node u v w => exact ⟨"", by simp [extractText, hty, extractContent]⟩

/-- Helper: membership in a `goodList` gives a `goodNode`. -/
theorem goodNode_of_mem_goodList (elems : List JsVal)
    (hgl : goodList elems = true) (x : JsVal) (hx : x ∈ elems) :
    goodNode x = true := by
  induction elems with
  | nil => cases hx
  | cons y ys ihy =>
    have hy : goodNode y = true ∧ goodList ys = true := by
      simpa [goodList, Bool.and_eq_true] using hgl
    rcases List.mem_cons.1 hx with rfl | hmem
    · exact hy.1
    · exact ihy hy.2 hmem

/-- The inner decoder never throws on well-formed values (helper for the
amended C8). -/
theorem extractText_ok_of_good (n : JsVal) (hg : goodNode n = true) :
    ∃ s, extractText n = .ok s := by
  match n with
  | .undefined => simp [goodNode] at hg
  | .str _ => exact ⟨"", rfl⟩
  | .arr _ => exact ⟨"", rfl⟩
  | .node ty tx .undefined =>
    exact extractText_node_nonarr ty tx .undefined (fun _ h => by cases h)
  | .node ty tx (.str t) =>
    exact extractText_node_nonarr ty tx (.str t) (fun _ h => by cases h)
  | .node ty tx (.node u v w) =>
    exact extractText_node_nonarr ty tx (.node u v w) (fun _ h => by cases h)
  | .node ty tx (.arr elems) =>
    by_cases hty : ty.isStrEq "text" = true
    · cases tx with
      | str t => exact ⟨t, by simp [extractText, hty, jsTextOrEmpty]⟩
      | undefined => exact ⟨"", by simp [extractText, hty, jsTextOrEmpty]⟩
      | arr l => exact ⟨"", by simp [extractText, hty, jsTextOrEmpty]⟩
      | node u v w => exact ⟨"", by simp [extractText, hty, jsTextOrEmpty]⟩
    · have hgl : goodList elems = true := by
        simpa [goodNode, hty] using hg
      have helems : ∀ x ∈ elems, ∃ s, extractText x = .ok s := by
        intro x hx
        exact extractText_ok_of_good x (goodNode_of_mem_goodList elems hgl x hx)
      obtain ⟨ss, hss⟩ := extractTextList_ok elems helems
      exact ⟨String.join ss, by simp [extractText, hty, extractContent, hss]⟩
termination_by sizeOf n
decreasing_by
  have hlt := List.sizeOf_lt_of_mem hx
  simp only [JsVal.node.sizeOf_spec, JsVal.arr.sizeOf_spec]
  omega

/-- C8 amended: the decoder never raises on any document that is falsy,
has falsy `content`, or has an *array* `content` containing no
`null`/`undefined` in any (recursively reached) content-array position; on
such documents unknown node kinds, text nodes with absent text, and
(below the root) missing or non-array `content` all contribute the empty
string.  The amendment the counterexample forces: totality does *not*
extend to a document whose top-level `content` is truthy but not an array
(a `TypeError`), nor to `null`/`undefined` elements inside content arrays.
-/
theorem decoder_total_on_wellformed :
    (∀ adf, goodDoc adf = true → ∃ s, extractTextFromADF adf = .ok s) ∧
    (∀ ty tx c, ty.isStrEq "text" = false → (∀ elems, c ≠ JsVal.arr elems) →
      extractText (.node ty tx c) = .ok "") ∧
    (∀ ty c, ty.isStrEq "text" = true →
      extractText (.node ty .undefined c) = .ok "") ∧
    (∀ adf, adf.jsContent.truthy = false → extractTextFromADF adf = .ok "") := by
  refine ⟨?_, ?_, ?_, ?_⟩
  · intro adf hg
    by_cases h1 : adf.truthy = true
    case neg => exact ⟨"", by simp [extractTextFromADF, h1]⟩
    by_cases h2 : adf.jsContent.truthy = true
    case neg => exact ⟨"", by simp [extractTextFromADF, h1, h2]⟩
    have hg' : (match adf.jsContent with
        | JsVal.arr elems => goodList elems
        | _ => false) = true := by
      simpa [goodDoc, h1, h2] using hg
    rcases hc : adf.jsContent with _ | t | elems | ⟨u, v, w⟩
    · rw [hc] at h2
      simp [JsVal.truthy] at h2
    · rw [hc] at hg'
      simp at hg'
    · rw [hc] at hg'
      have hgl : goodList elems = true := by simpa using hg'
      have helems : ∀ x ∈ elems, ∃ s, extractText x = .ok s := fun x hx =>
        extractText_ok_of_good x (goodNode_of_mem_goodList elems hgl x hx)
      obtain ⟨ss, hss⟩ := extractTextList_ok elems helems
      refine ⟨jsTrim (String.intercalate "\n" ss), ?_⟩
      have h3 : (JsVal.arr elems).truthy = true := rfl
      simp [extractTextFromADF, h1, h2, hc, hss, h3]
    · rw [hc] at hg'
      simp at hg'
  · intro ty tx c hty hc
    cases c with
    | arr elems => exact absurd rfl (hc elems)
    | undefined => simp [extractText, hty, extractContent]
    | str t => simp [extractText, hty, extractContent]
    | node u v w => simp [extractText, hty, extractContent]
  · intro ty c hty
    simp [extractText, hty, jsTextOrEmpty]
  · intro adf h2
    by_cases h1 : adf.truthy = true
    · simp [extractTextFromADF, h1, h2]
    · simp [extractTextFromADF, h1]

/-- C8 witness: the first conjunct applied to a concrete non-self-produced
document mixing unknown node kinds, a bare string element, a text node
without text, and a nested non-array `content` — it decodes without
raising. -/
theorem decoder_total_on_wellformed_witness :
    ∃ s, extractTextFromADF
        (.node (.str "doc") .undefined
          (.arr [.node (.str "mediaGroup") .undefined (.str "odd"),
                 .str "stray",
                 .node (.str "text") .undefined .undefined,
                 .node (.str "panel") .undefined
                   (.arr [.node (.str "text") (.str "kept") .undefined])])) =
      .ok s := by
  exact decoder_total_on_wellformed.1 _ (by decide)

/-- A record that already carries every (truthy) incoming field value of a
notification: the name matches a truthy summary, the ticket status matches
a truthy status name, and the description matches a non-empty decoded
description text. -/
def fieldsAgree (f : WebhookFields) (d : String) (prod : Product) : Prop :=
  (strTruthy f.summary = true → prod.name = f.summary.getD "") ∧
  (strTruthy f.statusName = true → prod.ticketStatus = some (f.statusName.getD "")) ∧
  (d ≠ "" → prod.description = some d)

/-- On an agreeing record every diff flag is false. -/
theorem diffs_false_of_agree (f : WebhookFields) (d : String) (prod : Product)
    (h : fieldsAgree f d prod) :
    nameDiff f prod = false ∧ statusDiff f prod = false ∧
      descDiff d prod = false := by
  obtain ⟨h1, h2, h3⟩ := h
  refine ⟨?_, ?_, ?_⟩
  · cases hs : strTruthy f.summary
    · simp [nameDiff, hs]
    · simp [nameDiff, hs, h1 hs]
  · cases hs : strTruthy f.statusName
    · simp [statusDiff, hs]
    · simp [statusDiff, hs, h2 hs]
  · by_cases hdm : d = ""
    · simp [descDiff, hdm]
    · simp [descDiff, h3 hdm]

/-- The diff step writes nothing on an agreeing record. -/
theorem webhookDiffStep_agree_noop (f : WebhookFields) (d : String)
    (prod : Product) (now : Nat)
    (hd : descTextOf f.description = .ok d) (h : fieldsAgree f d prod) :
    webhookDiffStep f prod now = (some prod, 0, .ok ()) := by
  obtain ⟨h1, h2, h3⟩ := diffs_false_of_agree f d prod h
  simp [webhookDiffStep, hd, h1, h2, h3]

/-- Whatever the diff step writes, the resulting record agrees with the
notification, and at most one write happened. -/
theorem webhookDiffStep_result_agrees (f : WebhookFields) (d : String)
    (prod : Product) (now : Nat)
    (hd : descTextOf f.description = .ok d) :
    ∃ prod' w, webhookDiffStep f prod now = (some prod', w, .ok ()) ∧
      w ≤ 1 ∧ fieldsAgree f d prod' := by
  by_cases hc : (nameDiff f prod || statusDiff f prod || descDiff d prod) = true
  · refine ⟨{ prod with
        name := if nameDiff f prod then f.summary.getD "" else prod.name
        ticketStatus :=
          if statusDiff f prod then some (f.statusName.getD "") else prod.ticketStatus
        description := if descDiff d prod then some d else prod.description
        jiraLastSyncAt := some now
        jiraSyncStatus := some "OK" }, 1,
      by simp [webhookDiffStep, hd, hc], by omega, ?_, ?_, ?_⟩
    · intro hs
      by_cases hn : nameDiff f prod = true
      · simp [hn]
      · have hb : (f.summary.getD "" != prod.name) = false := by
          rcases Bool.and_eq_false_iff.1 (Bool.eq_false_iff.2 hn) with h | h
          · rw [nameDiff] at hn
            exact absurd (by rw [hs] at h; exact h) (by simp)
          · exact h
        simp only [hn, if_false]
        exact (eq_of_beq (by simpa [bne] using hb)).symm
    · intro hs
      by_cases hn : statusDiff f prod = true
      · simp [hn]
      · simp only [hn, if_false]
        rw [statusDiff, hs, Bool.true_and] at hn
        cases hts : prod.ticketStatus with
        | none => rw [hts] at hn; exact absurd rfl hn
        | some t =>
          rw [hts] at hn
          have : f.statusName.getD "" = t := by
            have := Bool.eq_false_iff.2 hn
            simpa [bne] using this
          rw [this]
          simp
    · intro hdm
      by_cases hn : descDiff d prod = true
      · simp [hn]
      · simp only [hn, if_false]
        rw [descDiff] at hn
        have hdm' : (d != "") = true := by simpa [bne] using hdm
        rw [hdm', Bool.true_and] at hn
        cases hts : prod.description with
        | none => rw [hts] at hn; exact absurd rfl hn
        | some dd =>
          rw [hts] at hn
          have : d = dd := by
            have := Bool.eq_false_iff.2 hn
            simpa [bne] using this
          rw [this]
          simp
  · have hall := Bool.eq_false_iff.2 hc
    rw [Bool.or_eq_false_iff, Bool.or_eq_false_iff] at hall
    obtain ⟨⟨hn, hst⟩, hdd⟩ := hall
    refine ⟨prod, 0, by simp [webhookDiffStep, hd, hn, hst, hdd], by omega, ?_, ?_, ?_⟩
    · intro hs
      rw [nameDiff, hs, Bool.true_and] at hn
      exact (eq_of_beq (by simpa [bne] using hn)).symm
    · intro hs
      rw [statusDiff, hs, Bool.true_and] at hst
      cases hts : prod.ticketStatus with
      | none => rw [hts] at hst; exact absurd hst (by simp)
      | some t =>
        rw [hts] at hst
        have : f.statusName.getD "" = t := by simpa [bne] using hst
        rw [this]
    · intro hdm
      rw [descDiff] at hdd
      have hdm' : (d != "") = true := by simpa [bne] using hdm
      rw [hdm', Bool.true_and] at hdd
      cases hts : prod.description with
      | none => rw [hts] at hdd; exact absurd hdd (by simp)
      | some dd =>
        rw [hts] at hdd
        have : d = dd := by simpa [bne] using hdd
        rw [this]

/-- The record back-filled from a notification agrees with it. -/
theorem created_record_agrees (p : WebhookPayload) (d : String) (nid now : Nat) :
    fieldsAgree p.fields d (createdRecord p d nid now) := by
  refine ⟨?_, ?_, fun _ => rfl⟩
  · intro hs
    cases hsv : p.fields.summary with
    | none => rw [hsv] at hs; simp [strTruthy] at hs
    | some v =>
      rw [hsv] at hs
      have hv : v ≠ "" := by simpa [strTruthy] using hs
      simp [createdRecord, hsv, jsOr, hv]
  · intro hs
    cases hsv : p.fields.statusName with
    | none => rw [hsv] at hs; simp [strTruthy] at hs
    | some v =>
      rw [hsv] at hs
      have hv : v ≠ "" := by simpa [strTruthy] using hs
      simp [createdRecord, hsv, jsOrNull, hv]

/-- C4 counterexample: delivering the same notification twice does *not*
always perform exactly one persisted write.  A duplicate of the state the
record already holds (summary `"Widget"`, status `"TO DO"` against the
already-matching sample record) computes an empty diff on the *first*
delivery too: both deliveries write zero times, so the two-delivery total
is 0, not 1. -/
theorem duplicate_delivery_can_write_zero_times :
    handleJiraWebhook
        ⟨some "PROJ-1", none, ⟨some "Widget", some "TO DO", .undefined⟩⟩
        (some sampleProduct) 2 8 = (some sampleProduct, 0, .ok ()) ∧
    handleJiraWebhook
        ⟨some "PROJ-1", none, ⟨some "Widget", some "TO DO", .undefined⟩⟩
        (some sampleProduct) 3 9 = (some sampleProduct, 0, .ok ()) := by
  exact ⟨rfl, rfl⟩

/-- C4 amended: duplicate deliveries are idempotent, with *at most* (not
exactly) one write in total.  For every notification and starting state,
the second delivery leaves the record state exactly as the first delivery
left it, performs no write, and returns the same outcome; and the first
delivery performs at most one write.  (The "exactly one write" of the
claim fails only when the first delivery already had nothing to do —
matching duplicate, key-less payload, or a decode error.) -/
theorem second_delivery_is_noop :
    ∀ (p : WebhookPayload) (st : Option Product) (nid1 t1 nid2 t2 : Nat),
      handleJiraWebhook p ((handleJiraWebhook p st nid1 t1).1) nid2 t2 =
        ((handleJiraWebhook p st nid1 t1).1, 0,
          (handleJiraWebhook p st nid1 t1).2.2) ∧
      (handleJiraWebhook p st nid1 t1).2.1 ≤ 1 := by
  intro p st nid1 t1 nid2 t2
  by_cases hk : strTruthy p.key = true
  case neg => simp [handleJiraWebhook, hk]
  rcases hdesc : descTextOf p.fields.description with e | d
  · cases st with
    | none => simp [handleJiraWebhook, hk, hdesc]
    | some prod => simp [handleJiraWebhook, webhookDiffStep, hk, hdesc]
  · cases st with
    | some prod =>
      obtain ⟨prod', w, hstep, hw, hagree⟩ :=
        webhookDiffStep_result_agrees p.fields d prod t1 hdesc
      have hfirst : handleJiraWebhook p (some prod) nid1 t1 = (some prod', w, .ok ()) := by
        simp [handleJiraWebhook, hk, hstep]
      have hsecond : handleJiraWebhook p (some prod') nid2 t2 = (some prod', 0, .ok ()) := by
        simp [handleJiraWebhook, hk,
          webhookDiffStep_agree_noop p.fields d prod' t2 hdesc hagree]
      rw [hfirst]
      exact ⟨hsecond, hw⟩
    | none =>
      have hagree := created_record_agrees p d nid1 t1
      have hstep :=
        webhookDiffStep_agree_noop p.fields d (createdRecord p d nid1 t1) t1 hdesc hagree
      have hfirst : handleJiraWebhook p none nid1 t1 =
          (some (createdRecord p d nid1 t1), 1, .ok ()) := by
        simp [handleJiraWebhook, hk, hdesc, hstep]
      have hsecond : handleJiraWebhook p (some (createdRecord p d nid1 t1)) nid2 t2 =
          (some (createdRecord p d nid1 t1), 0, .ok ()) := by
        simp [handleJiraWebhook, hk,
          webhookDiffStep_agree_noop p.fields d (createdRecord p d nid1 t1) t2 hdesc hagree]
      rw [hfirst]
      exact ⟨hsecond, by simp⟩

/-- C10: against an existing record, each of the three mirrored fields
changes only when the incoming value is a non-empty string differing from
the current value (and then it becomes exactly the incoming value); an
absent summary or status, or a description that is absent or decodes to
`''`, leaves the corresponding field unchanged even if it currently
differs. -/
theorem webhook_updates_only_nonempty_differing_fields :
    ∀ (p : WebhookPayload) (prod : Product) (nid now : Nat) (d : String),
      strTruthy p.key = true →
      descTextOf p.fields.description = .ok d →
      ∃ prod', (handleJiraWebhook p (some prod) nid now).1 = some prod' ∧
        (strTruthy p.fields.summary = false → prod'.name = prod.name) ∧
        (prod'.name ≠ prod.name →
          strTruthy p.fields.summary = true ∧ prod'.name = p.fields.summary.getD "") ∧
        (strTruthy p.fields.statusName = false → prod'.ticketStatus = prod.ticketStatus) ∧
        (prod'.ticketStatus ≠ prod.ticketStatus →
          strTruthy p.fields.statusName = true ∧
            prod'.ticketStatus = some (p.fields.statusName.getD "")) ∧
        (d = "" → prod'.description = prod.description) ∧
        (prod'.description ≠ prod.description → d ≠ "" ∧ prod'.description = some d) := by
  intro p prod nid now d hk hdesc
  have hh : handleJiraWebhook p (some prod) nid now = webhookDiffStep p.fields prod now := by
    simp [handleJiraWebhook, hk]
  by_cases hc : (nameDiff p.fields prod || statusDiff p.fields prod || descDiff d prod) = true
  · refine ⟨{ prod with
        name := if nameDiff p.fields prod then p.fields.summary.getD "" else prod.name
        ticketStatus :=
          if statusDiff p.fields prod then some (p.fields.statusName.getD "")
          else prod.ticketStatus
        description := if descDiff d prod then some d else prod.description
        jiraLastSyncAt := some now
        jiraSyncStatus := some "OK" },
      by rw [hh]; simp [webhookDiffStep, hdesc, hc], ?_, ?_, ?_, ?_, ?_, ?_⟩
    · intro hs
      have hn : nameDiff p.fields prod = false := by simp [nameDiff, hs]
      simp [hn]
    · intro hne
      by_cases hn : nameDiff p.fields prod = true
      · refine ⟨?_, by simp [hn]⟩
        have h2 := hn
        rw [nameDiff, Bool.and_eq_true] at h2
        exact h2.1
      · exact absurd (by simp [hn]) hne
    · intro hs
      have hn : statusDiff p.fields prod = false := by simp [statusDiff, hs]
      simp [hn]
    · intro hne
      by_cases hn : statusDiff p.fields prod = true
      · refine ⟨?_, by simp [hn]⟩
        have h2 := hn
        rw [statusDiff, Bool.and_eq_true] at h2
        exact h2.1
      · exact absurd (by simp [hn]) hne
    · intro hd0
      have hn : descDiff d prod = false := by simp [descDiff, hd0]
      simp [hn]
    · intro hne
      by_cases hn : descDiff d prod = true
      · refine ⟨?_, by simp [hn]⟩
        have h2 := hn
        rw [descDiff, Bool.and_eq_true] at h2
        simpa [bne] using h2.1
      · exact absurd (by simp [hn]) hne
  · refine ⟨prod, by rw [hh]; simp [webhookDiffStep, hdesc, hc], ?_, ?_, ?_, ?_, ?_, ?_⟩
    · intro _
      rfl
    · intro hne
      exact absurd rfl hne
    · intro _
      rfl
    · intro hne
      exact absurd rfl hne
    · intro _
      rfl
    · intro hne
      exact absurd rfl hne

/-- C10 witness: a notification with a new status, an absent summary and an
empty-decoding description, against the sample record: only `ticketStatus`
changes. -/
theorem webhook_updates_only_nonempty_differing_fields_witness :
    ∃ prod',
      (handleJiraWebhook ⟨some "PROJ-1", none, ⟨none, some "Done", .undefined⟩⟩
          (some sampleProduct) 2 8).1 = some prod' ∧
        prod'.name = sampleProduct.name ∧
        prod'.description = sampleProduct.description ∧
        (prod'.ticketStatus ≠ sampleProduct.ticketStatus →
          prod'.ticketStatus = some "Done") := by
  obtain ⟨prod', h1, h2, _, _, h5, h6, _⟩ :=
    webhook_updates_only_nonempty_differing_fields
      ⟨some "PROJ-1", none, ⟨none, some "Done", .undefined⟩⟩
      sampleProduct 2 8 "" (by decide) rfl
  exact ⟨prod', h1, h2 rfl, h6 rfl, fun hne => (h5 hne).2⟩

end JiraSync
